import Mathlib

/-
Verification development for the fixedops-ai-demo repository.

The repository is a small rule-based estimation pipeline:
technician notes are normalized (src/app.py video_decoder_agent),
classified into labor operations (src/app.py labor_agent), resolved
to part lines against a CSV-backed catalog
(src/services/catalog_service.py, src/app.py parts_agent), totaled
(src/app.py estimate_generator) and validated
(src/services/validation_service.py).  A VIN decoder
(src/services/vin_decoder.py) supplies vehicle context.

Python strings are modelled as Lean String values, Python floats used
as currency amounts are modelled as rationals, and Python dict-shaped
records are modelled as structures whose fields are exactly the keys
the code reads or writes.
-/

set_option maxHeartbeats 1000000

namespace FixedOps

/-- Character-wise lowercasing, modelling Python str.lower on the
ASCII texts the program handles. -/
def lowerS (s : String) : String := String.mk (s.data.map Char.toLower)

/-- Character-wise uppercasing, modelling Python str.upper on the
ASCII texts the program handles. -/
def upperS (s : String) : String := String.mk (s.data.map Char.toUpper)

/-- Removal of leading and trailing whitespace, modelling Python
str.strip. -/
def stripS (s : String) : String :=
  String.mk (((s.data.dropWhile Char.isWhitespace).reverse.dropWhile Char.isWhitespace).reverse)

/-- Test whether the first character list starts the second. -/
def prefOf : List Char → List Char → Bool
  | [], _ => true
  | _ :: _, [] => false
  | a :: as, b :: bs => a == b && prefOf as bs

/-- Test whether the first character list occurs contiguously inside
the second. -/
def infOf (needle : List Char) : List Char → Bool
  | [] => prefOf needle []
  | b :: bs => prefOf needle (b :: bs) || infOf needle bs

/-- Python substring membership: needle in hay. -/
def subIn (needle hay : String) : Bool := infOf needle.data hay.data

/-- Rounding to two decimal places, modelling the round(x, 2) calls of
src/app.py over exact rationals.  Python rounds half-to-even on binary
floats; over the rationals we use the Mathlib round (half-up).  The two
agree except on exact half-cent ties, which no claim exercises. -/
def round2 (x : ℚ) : ℚ := ((round (x * 100) : ℤ) : ℚ) / 100

/-- A rational is a whole number of cents. -/
def isCents (x : ℚ) : Prop := ∃ k : ℤ, x = (k : ℚ) / 100

/-- Decimal rendering of a currency amount, standing in for the Python
format string with two decimals in log messages.  Only the presence of
log and warning entries matters to the claims, never their text. -/
def formatMoney (q : ℚ) : String :=
  let c : ℤ := round (q * 100)
  let sign := if c < 0 then "-" else ""
  let a := c.natAbs
  sign ++ toString (a / 100) ++ "." ++ (if a % 100 < 10 then "0" else "") ++ toString (a % 100)

/- ----------------------------------------------------------------
Notes normalizer: video_decoder_agent of src/app.py.
---------------------------------------------------------------- -/

structure VideoResult where
  decoded_notes : String
  log : List String
deriving DecidableEq

/-- video_decoder_agent of src/app.py: merges the optional video flag
into the technician text. -/
def videoDecoderAgent (technician_text : String) (has_video : Bool) : VideoResult :=
  if has_video then
    { decoded_notes := technician_text ++ " [Video transcript merged into notes.]"
      log := ["Video Decoder Agent: Received walkaround video + technician notes. Transcribing audio and merging with text input."] }
  else
    { decoded_notes := technician_text
      log := ["Video Decoder Agent: No video provided. Using technician text only."] }

/- ----------------------------------------------------------------
Labor classifier: labor_agent of src/app.py.
---------------------------------------------------------------- -/

/-- A labor operation dict as first built by labor_agent, before the
final loop adds the line_total key. -/
structure LaborDraft where
  operation_code : String
  description : String
  hours : ℚ
  rate : ℚ
deriving DecidableEq

/-- A labor operation dict as returned by labor_agent. -/
structure LaborOp where
  operation_code : String
  description : String
  hours : ℚ
  rate : ℚ
  line_total : ℚ
deriving DecidableEq

structure LaborResult where
  labor_ops : List LaborOp
  log : List String
deriving DecidableEq

def brakeKeys : List String := ["brake", "grinding", "squeak", "pads", "rotor"]
def altKeys : List String := ["alternator", "charging", "battery", "voltage", "dim lights"]
def tireKeys : List String := ["tire", "tread", "bald", "flat", "puncture"]
def suspKeys : List String := ["suspension", "strut", "shock", "clunk", "bumpy", "control arm"]
def coolKeys : List String := ["coolant", "radiator", "overheat", "leaking water", "hoses"]
def oilKeys : List String := ["oil leak", "burning smell", "valve cover", "gasket", "dripping"]
def tuneKeys : List String := ["spark plug", "tune up", "misfire", "rough idle"]

/-- Python any(x in text for x in keys). -/
def anyKey (text : String) (keys : List String) : Bool := keys.any fun k => subIn k text

/-- labor_agent of src/app.py: keyword classification of the decoded
notes into standardized labor operations.  Its only inputs are the
decoded notes and the labor rate; no vehicle data reaches it. -/
def laborAgent (decoded_notes : String) (labor_rate : ℚ) : LaborResult :=
  let text := lowerS decoded_notes
  let hit1 := anyKey text brakeKeys
  let hit2 := anyKey text altKeys
  let hit3 := anyKey text tireKeys
  let hit4 := anyKey text suspKeys
  let hit5 := anyKey text coolKeys
  let hit6 := anyKey text oilKeys
  let hit7 := anyKey text tuneKeys
  let drafts0 : List LaborDraft :=
    (if hit1 then [⟨"RR-BRAKE", "Replace rear brake pads and rotors", 2, labor_rate⟩] else []) ++
    (if hit2 then [⟨"ALT-REPL", "Alternator replacement", 5/2, labor_rate⟩] else []) ++
    (if hit3 then [⟨"TIRE-SET", "Mount and Balance 4 Tires", 3/2, labor_rate⟩] else []) ++
    (if hit4 then [⟨"SUSP-FRONT", "Replace Front Suspension Components (Struts/Arms)", 7/2, labor_rate⟩] else []) ++
    (if hit5 then [⟨"COOLING-SYS", "Cooling System Service (Radiator & Flush)", 4, labor_rate⟩] else []) ++
    (if hit6 then [⟨"OIL-LEAK", "Reseal Valve Cover Gaskets", 3, labor_rate⟩] else []) ++
    (if hit7 then [⟨"SPARK-PLUG", "Spark Plug Replacement & Tune-up", 3/2, labor_rate⟩] else [])
  let drafts : List LaborDraft :=
    if drafts0.isEmpty then
      [⟨"GEN-DIAG", "General Diagnosis (No specific system matched)", 1, labor_rate⟩]
    else drafts0
  let labor_ops := drafts.map fun d =>
    LaborOp.mk d.operation_code d.description d.hours d.rate (round2 (d.hours * d.rate))
  let log :=
    ["AI Labor Agent: Interpreting technician notes and mapping to labor operations."] ++
    (if hit1 then ["Added labor line: Rear brake pads & rotors (2.0 hrs)."] else []) ++
    (if hit2 then ["Added labor line: Alternator replacement (2.5 hrs)."] else []) ++
    (if hit3 then ["Added labor line: Mount and Balance 4 Tires (1.5 hrs)."] else []) ++
    (if hit4 then ["Added labor line: Front Suspension Overhaul (3.5 hrs)."] else []) ++
    (if hit5 then ["Added labor line: Radiator & Cooling System Service (4.0 hrs)."] else []) ++
    (if hit6 then ["Added labor line: Engine Oil Leak Repair (3.0 hrs)."] else []) ++
    (if hit7 then ["Added labor line: Spark Plug Service (1.5 hrs)."] else []) ++
    (if drafts0.isEmpty then ["No specific concerns matched. Added generic diagnostic labor line (1.0 hr)."] else [])
  { labor_ops := labor_ops, log := log }

/-- Disjunction of all seven keyword groups of labor_agent: true when
the lowered text contains at least one recognized keyword. -/
def hasAnyKeyword (s : String) : Bool :=
  let text := lowerS s
  anyKey text brakeKeys || anyKey text altKeys || anyKey text tireKeys ||
  anyKey text suspKeys || anyKey text coolKeys || anyKey text oilKeys ||
  anyKey text tuneKeys

/- ----------------------------------------------------------------
Catalog service: src/services/catalog_service.py.
---------------------------------------------------------------- -/

/-- A row of the parts catalog CSV after loading.  The loader of
CatalogService parses make, operation_code, part_number, description,
unit_price, cost_price, stock_source and availability; the qty and
line_total keys are absent on stored rows and only ever written onto
the per-call copies made by get_parts_for_op, hence the Option type. -/
structure CatalogRow where
  make : String
  operation_code : String
  part_number : String
  description : String
  unit_price : ℚ
  cost_price : ℚ
  stock_source : String
  availability : String
  qty : Option ℕ := none
  line_total : Option ℚ := none
deriving DecidableEq

/-- CatalogService state: the in-memory db list loaded once from the
CSV at startup. -/
structure CatalogService where
  db : List CatalogRow
deriving DecidableEq

/-- get_parts_for_op of src/services/catalog_service.py, in
state-passing form: the second component is the service state after
the call.  The body matches rows case-insensitively on make and
exactly on operation_code, copies each match (row.copy), and writes
qty = 1 and line_total = qty * unit_price onto the copy only. -/
def CatalogService.get_parts_for_op (self : CatalogService) (make : String) (op_code : String) :
    List CatalogRow × CatalogService :=
  let matchRows :=
    (self.db.filter fun row => upperS row.make == upperS make && row.operation_code == op_code).map
      fun row => { row with qty := some 1, line_total := some ((1 : ℚ) * row.unit_price) }
  (matchRows, self)

/- ----------------------------------------------------------------
Parts agent: parts_agent of src/app.py.
---------------------------------------------------------------- -/

/-- A parts line dict as built by parts_agent. -/
structure PartLine where
  operation_code : String
  part_number : String
  description : String
  qty : ℕ
  unit_price : ℚ
  stock_source : String
  availability : String
  line_total : ℚ
deriving DecidableEq

structure PartsResult where
  parts_lines : List PartLine
  log : List String
deriving DecidableEq

/-- The catalog query of one loop iteration of parts_agent: the found
parts when a catalog service is in session state, the empty list when
it is absent. -/
def foundPartsFor (catalog : Option CatalogService) (vehicle_make : String) (op_code : String) :
    List CatalogRow :=
  match catalog with
  | some c => (c.get_parts_for_op vehicle_make op_code).1
  | none => []

/-- One loop iteration of parts_agent for a single labor operation:
the part lines and the log entries it contributes. -/
def resolveOp (catalog : Option CatalogService) (vehicle_make : String) (op : LaborOp) :
    List PartLine × List String :=
  let op_code := op.operation_code
  let found_parts := foundPartsFor catalog vehicle_make op_code
  if found_parts.isEmpty then
    if op_code ≠ "GEN-DIAG" then
      ([{ operation_code := op_code
          part_number := "GEN-PART"
          description := "Generic Part for " ++ op_code
          qty := 1
          unit_price := 50
          stock_source := "Local Auto Parts"
          availability := "On Demand"
          line_total := 50 }],
       ["No specific parts found for " ++ op_code ++ " on " ++ vehicle_make ++ ". Adding generic placeholder."])
    else ([], [])
  else
    (found_parts.map fun p =>
      { operation_code := op_code
        part_number := p.part_number
        description := p.description
        qty := 1
        unit_price := p.unit_price
        stock_source := p.stock_source
        availability := p.availability
        line_total := p.unit_price * 1 },
     ["Found " ++ toString found_parts.length ++ " parts for operation " ++ op_code ++ "."])

/-- The parts lines accumulated by the loop of parts_agent. -/
def partsAgentLines (catalog : Option CatalogService) (vehicle_make : String) :
    List LaborOp → List PartLine
  | [] => []
  | op :: rest => (resolveOp catalog vehicle_make op).1 ++ partsAgentLines catalog vehicle_make rest

/-- The log lines accumulated by the loop of parts_agent. -/
def partsAgentLog (catalog : Option CatalogService) (vehicle_make : String) :
    List LaborOp → List String
  | [] => []
  | op :: rest => (resolveOp catalog vehicle_make op).2 ++ partsAgentLog catalog vehicle_make rest

/-- parts_agent of src/app.py with the per-operation catalog query
dispatched to CatalogService.get_parts_for_op, the lookup that the
call site evidently intends.  As written, src/app.py line 158 invokes
the method under the name lookup_parts, which CatalogService does not
define; that as-written dispatch is modelled by partsAgentApp below. -/
def partsAgent (labor_ops : List LaborOp) (catalog : Option CatalogService) (vehicle_make : String) :
    PartsResult :=
  { parts_lines := partsAgentLines catalog vehicle_make labor_ops
    log := ("AI Parts Agent: Looking up parts for vehicle make: " ++ vehicle_make) ::
      partsAgentLog catalog vehicle_make labor_ops }

/-- The AttributeError message Python raises at the lookup_parts call
of src/app.py line 158. -/
def attributeErrorMsg : String :=
  "AttributeError: CatalogService object has no attribute lookup_parts"

/-- parts_agent of src/app.py exactly as written: the first loop
iteration evaluates catalog.lookup_parts(vehicle_make, op_code), an
attribute CatalogService does not define, so whenever a catalog
service is present and at least one labor operation exists the call
raises AttributeError.  Only with no catalog in session state (the
temporary fallback path) does the loop complete. -/
def partsAgentApp (labor_ops : List LaborOp) (catalog : Option CatalogService) (vehicle_make : String) :
    Except String PartsResult :=
  match catalog, labor_ops with
  | some _, _ :: _ => .error attributeErrorMsg
  | _, _ => .ok (partsAgent labor_ops catalog vehicle_make)

/- ----------------------------------------------------------------
Estimate totaler: estimate_generator of src/app.py.
---------------------------------------------------------------- -/

structure EstimateSummary where
  labor_subtotal : ℚ
  parts_subtotal : ℚ
  shop_fees : ℚ
  tax : ℚ
  grand_total : ℚ
deriving DecidableEq

structure EstimateResult where
  summary : EstimateSummary
  log : List String
deriving DecidableEq

/-- estimate_generator of src/app.py. -/
def estimateGenerator (labor_ops : List LaborOp) (parts_lines : List PartLine)
    (shop_fees_pct : ℚ) (tax_pct : ℚ) : EstimateResult :=
  let labor_subtotal := (labor_ops.map LaborOp.line_total).sum
  let parts_subtotal := (parts_lines.map PartLine.line_total).sum
  let subtotal := labor_subtotal + parts_subtotal
  let shop_fees := round2 (subtotal * shop_fees_pct)
  let tax := round2 ((subtotal + shop_fees) * tax_pct)
  let grand_total := round2 (subtotal + shop_fees + tax)
  { summary :=
      { labor_subtotal := round2 labor_subtotal
        parts_subtotal := round2 parts_subtotal
        shop_fees := shop_fees
        tax := tax
        grand_total := grand_total }
    log :=
      ["Estimate Generator Agent: Summarizing labor and parts into a customer-facing estimate.",
       "Computed estimate totals. Grand total: $" ++ formatMoney grand_total ++ "."] }

/- ----------------------------------------------------------------
Validation engine: src/services/validation_service.py.
---------------------------------------------------------------- -/

structure ValidationResult where
  status : String
  warnings : List String
  log : List String
deriving DecidableEq

/-- MAX_AUTO_APPROVAL of ValidationService. -/
def MAX_AUTO_APPROVAL : ℚ := 4000

/-- MIN_PARTS_MARGIN of ValidationService; configured but never read
by validate_estimate. -/
def MIN_PARTS_MARGIN : ℚ := 1/4

/-- validate_estimate of src/services/validation_service.py.  The
summary argument models the dict reads with .get defaults 0.0; the
code always receives a summary carrying all four keys. -/
def validateEstimate (estimate_summary : EstimateSummary) (parts_lines : List PartLine) :
    ValidationResult :=
  let labor_total := estimate_summary.labor_subtotal
  let shop_fees := estimate_summary.shop_fees
  let tax_amount := estimate_summary.tax
  let grand_total := estimate_summary.grand_total
  let w1 : List String :=
    if labor_total > 0 ∧ shop_fees ≤ 1/100 then
      ["Profit Alert: Shop Supplies are set to $0.00."] else []
  let w2 : List String :=
    if labor_total > 0 ∧ tax_amount ≤ 1/100 then
      ["Compliance Alert: Sales Tax is currently $0.00."] else []
  let big := grand_total > MAX_AUTO_APPROVAL
  let w3 : List String :=
    if big then
      ["Manager Approval Required: Estimate ($" ++ formatMoney grand_total ++ ") exceeds limit."]
    else []
  let w4 : List String :=
    (parts_lines.filter fun p => subIn "TIRE" p.part_number && decide (p.unit_price > 200)).map
      fun p => "Margin Check: High-value tire (" ++ p.part_number ++ ") detected."
  let warnings := w1 ++ w2 ++ w3 ++ w4
  let status0 := if big then "review" else "pass"
  let status := if ¬warnings.isEmpty ∧ status0 = "pass" then "review" else status0
  let log :=
    ["Validation Service: Starting compliance check..."] ++
    (warnings.map fun m => ":red[FLAGGED: " ++ m ++ "]") ++
    (if status = "pass" then [":green[Validation Complete: Estimate looks good.]"]
     else [":red[Validation Complete: Found " ++ toString warnings.length ++ " issues.]"])
  { status := status, warnings := warnings, log := log }

/- ----------------------------------------------------------------
VIN decoder: src/services/vin_decoder.py.
---------------------------------------------------------------- -/

/-- One value of the wmi_db dict of VinDecoder: make and vehicle type
for a manufacturer code. -/
structure WmiEntry where
  make : String
  vtype : String
deriving DecidableEq

/-- One value of the rules_db dict of VinDecoder.  The engines and
trims keys may be absent from a rule, hence the Option type; the code
substitutes the defaults of rule.get at the sampling sites. -/
structure VinRule where
  engines : Option (List String) := none
  trims : Option (List String) := none
deriving DecidableEq

/-- The vehicle profile built by VinDecoder.decode. -/
structure VinProfileD where
  make : String
  model : String
  year : ℤ
  engine : String
  trim : String
  drivetrain : String
  vehicle_type : String
  confidence : ℚ
deriving DecidableEq

/-- The year_map table of VinDecoder.decode, keyed by the 10th VIN
character. -/
def yearMap : List (Char × ℤ) :=
  [('A', 2010), ('B', 2011), ('C', 2012), ('D', 2013), ('E', 2014), ('F', 2015),
   ('G', 2016), ('H', 2017), ('J', 2018), ('K', 2019), ('L', 2020), ('M', 2021),
   ('N', 2022), ('P', 2023), ('R', 2024), ('S', 2025),
   ('1', 2001), ('2', 2002), ('3', 2003), ('4', 2004), ('5', 2005), ('6', 2006),
   ('7', 2007), ('8', 2008), ('9', 2009)]

/-- The make-to-model elif chain of VinDecoder.decode (the model
variable starts as "Unknown Model"). -/
def modelFor (make : String) : String :=
  if make = "HONDA" then "CIVIC"
  else if make = "FORD" then "F-150"
  else if make = "TOYOTA" then "CAMRY"
  else if make = "CHEVROLET" then "SILVERADO"
  else if make = "RAM" then "1500"
  else if make = "JEEP" then "WRANGLER"
  else if make = "DODGE" then "CHALLENGER"
  else "Unknown Model"

/-- VinDecoder.decode of src/services/vin_decoder.py.  The wmi and
rules tables are the dicts loaded from the data files (which live
outside src, so they stay parameters), and pick models random.choice
on a nonempty candidate list. -/
def decode (wmiDb : List (String × WmiEntry)) (rulesDb : List (String × VinRule))
    (pick : List String → String) (vin : String) : VinProfileD :=
  let v := stripS (upperS vin)
  if v.data.length ≠ 17 then
    { make := "UNKNOWN", model := "UNKNOWN", year := 0, engine := "UNKNOWN",
      trim := "UNKNOWN", drivetrain := "UNKNOWN", vehicle_type := "UNKNOWN", confidence := 0 }
  else
    let year_char := v.data.getD 9 ' '
    let year := (yearMap.lookup year_char).getD 2000
    let wmi := String.mk (v.data.take 3)
    let wd := (wmiDb.lookup wmi).getD ⟨"UNKNOWN", "UNKNOWN"⟩
    let make := wd.make
    let vehicle_type := wd.vtype
    if make ≠ "UNKNOWN" then
      let et : String × String :=
        match rulesDb.lookup make with
        | some rule => (pick (rule.engines.getD ["Standard Engine"]), pick (rule.trims.getD ["Base"]))
        | none => ("UNKNOWN", "UNKNOWN")
      { make := make, model := modelFor make, year := year, engine := et.1, trim := et.2,
        drivetrain := pick ["FWD", "RWD", "AWD", "4WD"], vehicle_type := vehicle_type,
        confidence := 4/5 }
    else
      { make := make, model := "Unknown Model", year := year, engine := "UNKNOWN",
        trim := "UNKNOWN", drivetrain := "UNKNOWN", vehicle_type := vehicle_type,
        confidence := 0 }

/- ----------------------------------------------------------------
Pipeline wiring: run_full_pipeline of src/app.py.
---------------------------------------------------------------- -/

/-- The labor classification stage of run_full_pipeline as a function
of the decoded vehicle profile as well: run_full_pipeline invokes
labor_agent(video_decoded_notes, labor_rate), passing no vehicle data,
so the profile argument is unused by construction. -/
def laborStage (decoded_notes : String) (labor_rate : ℚ) (_profile : VinProfileD) : LaborResult :=
  laborAgent decoded_notes labor_rate

/- ----------------------------------------------------------------
Quantity policy of the specification.
---------------------------------------------------------------- -/

/-- Modelled from the spec: the per-group required part quantity
policy of section 4.3 (brakes 1, tires 4, suspension 2, oil-leak 1 or
2 by engine marker, tune-up 4/6/8 by engine marker, general diagnosis
0).  No corresponding code exists anywhere in src; the classifier of
src/app.py emits no quantity field at all.  This definition exists
only to state the policy that claims C3 and C4 attribute to the
code. -/
def requiredQtySpec (op_code : String) (engine : String) : ℕ :=
  if op_code = "RR-BRAKE" then 1
  else if op_code = "TIRE-SET" then 4
  else if op_code = "SUSP-FRONT" then 2
  else if op_code = "OIL-LEAK" then
    (if subIn "V6" engine || subIn "V8" engine || subIn "HEMI" engine then 2 else 1)
  else if op_code = "SPARK-PLUG" then
    (if subIn "V8" engine || subIn "HEMI" engine then 8
     else if subIn "V6" engine then 6 else 4)
  else if op_code = "GEN-DIAG" then 0
  else 1

/- ----------------------------------------------------------------
Concrete sample values used by witnesses and counterexamples.
---------------------------------------------------------------- -/

/-- A catalog row whose description contains "Rotor" and neither "Kit"
nor "Set". -/
def rotorRow : CatalogRow :=
  { make := "HONDA", operation_code := "RR-BRAKE", part_number := "45251-ROT",
    description := "Front Brake Rotor", unit_price := 80, cost_price := 40,
    stock_source := "OEM", availability := "In Stock" }

/-- A one-row catalog service holding rotorRow. -/
def svcRotor : CatalogService := ⟨[rotorRow]⟩

/-- The copy of rotorRow that get_parts_for_op returns. -/
def rotorCopy : CatalogRow :=
  { rotorRow with qty := some 1, line_total := some ((1 : ℚ) * rotorRow.unit_price) }

/-- The brake labor operation at rate 160, as labor_agent emits it. -/
def brakeOp160 : LaborOp :=
  ⟨"RR-BRAKE", "Replace rear brake pads and rotors", 2, 160, 320⟩

/-- The tire labor operation at rate 160, as labor_agent emits it. -/
def tireOp160 : LaborOp :=
  ⟨"TIRE-SET", "Mount and Balance 4 Tires", 3/2, 160, 240⟩

/-- A Honda profile whose engine descriptor contains "V6". -/
def profileV6 : VinProfileD :=
  ⟨"HONDA", "CIVIC", 2017, "3.5L V6", "EX", "FWD", "Car", 4/5⟩

/-- A Honda profile whose engine descriptor contains "V8". -/
def profileV8 : VinProfileD :=
  ⟨"HONDA", "CIVIC", 2017, "5.0L V8", "EX", "FWD", "Car", 4/5⟩

/-- A one-entry wmi table mapping the 1HG manufacturer code to
HONDA. -/
def wmiHonda : List (String × WmiEntry) := [("1HG", ⟨"HONDA", "Car"⟩)]

/-- A deterministic stand-in for random.choice. -/
def pickHead (l : List String) : String := l.headD ""

/-- A part line with a sub-cent line total, as a catalog CSV price of
0.004 would produce. -/
def tinyPart : PartLine :=
  { operation_code := "RR-BRAKE", part_number := "X1", description := "Shim",
    qty := 1, unit_price := 1/250, stock_source := "OEM", availability := "In Stock",
    line_total := 1/250 }

/- ----------------------------------------------------------------
Helper lemmas.
---------------------------------------------------------------- -/

theorem isEmpty_append {α : Type} (l m : List α) :
    (l ++ m).isEmpty = (l.isEmpty && m.isEmpty) := by
  cases l <;> simp [List.isEmpty]

theorem status_flip (b : Bool) :
    (if ¬(b = true) ∧ True then "review" else "pass") =
      (if b = true then ("pass" : String) else "review") := by
  cases b <;> simp

theorem isCents_round2 (x : ℚ) : isCents (round2 x) :=
  ⟨round (x * 100), rfl⟩

theorem isCents_add {x y : ℚ} (hx : isCents x) (hy : isCents y) : isCents (x + y) := by
  obtain ⟨k, rfl⟩ := hx
  obtain ⟨m, rfl⟩ := hy
  exact ⟨k + m, by push_cast; ring⟩

theorem isCents_zero : isCents 0 := ⟨0, by norm_num⟩

theorem isCents_sum_map {α : Type} (l : List α) (f : α → ℚ)
    (h : ∀ a ∈ l, isCents (f a)) : isCents ((l.map f).sum) := by
  induction l with
  | nil => simpa using isCents_zero
  | cons a rest ih =>
      simp only [List.map_cons, List.sum_cons]
      exact isCents_add (h a (by simp)) (ih fun b hb => h b (by simp [hb]))

theorem round2_of_isCents {x : ℚ} (h : isCents x) : round2 x = x := by
  obtain ⟨k, rfl⟩ := h
  unfold round2
  have h1 : ((k : ℚ) / 100) * 100 = (k : ℚ) := by field_simp
  rw [h1, round_intCast]

theorem round2_add_cents {c : ℚ} (h : isCents c) (x : ℚ) :
    round2 (c + x) = c + round2 x := by
  obtain ⟨k, rfl⟩ := h
  unfold round2
  have h1 : ((k : ℚ) / 100 + x) * 100 = x * 100 + (k : ℚ) := by field_simp; ring
  rw [h1, round_add_int]
  push_cast
  ring

theorem round2_grand {ls ps f t : ℚ} (hls : isCents ls) (hf : isCents f) (ht : isCents t) :
    round2 (ls + ps + f + t) = round2 ls + round2 ps + f + t := by
  have hc : isCents (ls + f + t) := isCents_add (isCents_add hls hf) ht
  have h1 : ls + ps + f + t = (ls + f + t) + ps := by ring
  rw [h1, round2_add_cents hc, round2_of_isCents hls]
  ring

theorem resolveOp_qty (catalog : Option CatalogService) (make : String) (op : LaborOp) :
    ∀ l ∈ (resolveOp catalog make op).1, l.qty = 1 := by
  intro l hl
  by_cases h1 : foundPartsFor catalog make op.operation_code = []
  · by_cases h2 : op.operation_code = "GEN-DIAG"
    · rw [h2] at h1
      simp [resolveOp, h1, h2] at hl
    · simp [resolveOp, h1, h2] at hl
      subst hl; rfl
  · simp [resolveOp, h1] at hl
    obtain ⟨p, _, rfl⟩ := hl
    rfl

theorem partsAgentLines_qty (catalog : Option CatalogService) (make : String)
    (ops : List LaborOp) : ∀ l ∈ partsAgentLines catalog make ops, l.qty = 1 := by
  induction ops with
  | nil => simp [partsAgentLines]
  | cons op rest ih =>
      intro l hl
      simp only [partsAgentLines, List.mem_append] at hl
      rcases hl with h | h
      · exact resolveOp_qty catalog make op l h
      · exact ih l h

/- ----------------------------------------------------------------
Claim theorems.
---------------------------------------------------------------- -/

/-- C1: the claim says every stage of the core pipeline is total and
never raises.  The parts-resolution stage as written is not: for any
loaded catalog service and any notes that produce a labor operation
(here the single word "brake" at any labor rate), parts_agent of
src/app.py evaluates catalog.lookup_parts, an attribute that
CatalogService does not define, and raises AttributeError.  This
theorem evaluates the as-written stage at such an input. -/
theorem parts_agent_attribute_error_c1 (svc : CatalogService) (rate : ℚ) :
    partsAgentApp (laborAgent "brake" rate).labor_ops (some svc) "HONDA" =
      Except.error attributeErrorMsg := rfl

/-- C2 counterexample: a matched catalog row whose description
contains "Rotor" and neither "Kit" nor "Set" resolves to quantity 1,
not the quantity 2 the claim requires. -/
theorem catalog_rotor_qty_cex :
    subIn "Rotor" rotorRow.description = true ∧
    subIn "Kit" rotorRow.description = false ∧
    subIn "Set" rotorRow.description = false ∧
    ((svcRotor.get_parts_for_op "HONDA" "RR-BRAKE").1.map CatalogRow.qty) = [some 1] ∧
    ((partsAgent [brakeOp160] (some svcRotor) "HONDA").parts_lines.map PartLine.qty) = [1] ∧
    (1 : ℕ) ≠ 2 := by decide

/-- C2 amended: every catalog row matched during parts resolution
resolves to quantity 1, regardless of its description; in particular
rows whose description contains "Set" or "Kit" get quantity 1 (as the
claim says), but so do "Rotor" rows (the claimed Rotor-to-2 override
does not exist in get_parts_for_op of
src/services/catalog_service.py). -/
theorem catalog_qty_always_one_c2 (svc : CatalogService) (make op_code : String) :
    (((svc.get_parts_for_op make op_code).1.all fun item => item.qty == some 1) = true) := by
  simp only [CatalogService.get_parts_for_op, List.all_eq_true]
  intro item hmem
  simp only [List.mem_map, List.mem_filter] at hmem
  obtain ⟨row, _, rfl⟩ := hmem
  rfl

/-- C3 counterexample: the labor classifier of src/app.py receives no
vehicle profile (its output for a tune-up note is one and the same
value for a V6 and a V8 profile), and the only quantity the pipeline
ever attaches to the resulting operation is the part-line quantity 1,
not the 6 that the spec policy assigns to a tune-up on a V6 engine. -/
theorem classifier_no_qty_policy_cex :
    laborStage "spark plug replacement due" 160 profileV6 =
      laborStage "spark plug replacement due" 160 profileV8 ∧
    ((partsAgent (laborAgent "spark plug replacement due" 160).labor_ops
        (some ⟨[]⟩) "HONDA").parts_lines.map PartLine.qty) = [1] ∧
    requiredQtySpec "SPARK-PLUG" profileV6.engine = 6 ∧
    profileV6.engine ≠ profileV8.engine ∧
    (1 : ℕ) ≠ 6 :=
  ⟨rfl, by decide, by decide, by decide, by decide⟩

/-- C3 amended: the labor classifier takes only the decoded notes and
the labor rate — run_full_pipeline of src/app.py passes it no vehicle
data, so its output is identical for all vehicle profiles — and it
assigns no required part quantities at all; downstream parts
resolution attaches quantity 1 to every part line of every group. -/
theorem classifier_profile_free_c3 :
    (∀ (notes : String) (rate : ℚ) (p₁ p₂ : VinProfileD),
        laborStage notes rate p₁ = laborStage notes rate p₂) ∧
    (∀ (labor_ops : List LaborOp) (catalog : Option CatalogService) (make : String),
        (((partsAgent labor_ops catalog make).parts_lines.all fun l => l.qty == 1) = true)) := by
  constructor
  · intro notes rate p₁ p₂
    rfl
  · intro labor_ops catalog make
    simp only [partsAgent, List.all_eq_true, beq_iff_eq]
    exact partsAgentLines_qty catalog make labor_ops

/-- C4 counterexample: a tire operation with no catalog match produces
a generic placeholder of quantity 1, not the required quantity 4 that
the spec policy assigns to tires. -/
theorem placeholder_qty_cex :
    ((partsAgent [tireOp160] (some ⟨[]⟩) "HONDA").parts_lines.map PartLine.qty) = [1] ∧
    ((partsAgent [tireOp160] (some ⟨[]⟩) "HONDA").parts_lines.map PartLine.part_number) = ["GEN-PART"] ∧
    requiredQtySpec "TIRE-SET" "Standard Engine" = 4 ∧
    (1 : ℕ) ≠ 4 := by decide

/-- C4 amended: for every labor operation with no catalog match, parts
resolution emits exactly one generic placeholder line with part number
"GEN-PART", unit price 50.00 and quantity 1 (not the spec-policy
required quantity of the operation, which the code never computes), unless
the operation code is "GEN-DIAG", in which case no part line is
emitted. -/
theorem placeholder_amended_c4 (op : LaborOp) (catalog : Option CatalogService) (make : String)
    (h : foundPartsFor catalog make op.operation_code = []) :
    (partsAgent [op] catalog make).parts_lines =
      (if op.operation_code = "GEN-DIAG" then []
       else [{ operation_code := op.operation_code, part_number := "GEN-PART",
               description := "Generic Part for " ++ op.operation_code, qty := 1,
               unit_price := 50, stock_source := "Local Auto Parts",
               availability := "On Demand", line_total := 50 }]) := by
  by_cases hc : op.operation_code = "GEN-DIAG"
  · rw [hc] at h
    simp [partsAgent, partsAgentLines, resolveOp, h, hc]
  · simp [partsAgent, partsAgentLines, resolveOp, h, hc]

theorem placeholder_amended_c4_witness :
    foundPartsFor (some ⟨[]⟩) "HONDA" tireOp160.operation_code = [] ∧
    (partsAgent [tireOp160] (some ⟨[]⟩) "HONDA").parts_lines =
      (if tireOp160.operation_code = "GEN-DIAG" then []
       else [{ operation_code := tireOp160.operation_code, part_number := "GEN-PART",
               description := "Generic Part for " ++ tireOp160.operation_code, qty := 1,
               unit_price := 50, stock_source := "Local Auto Parts",
               availability := "On Demand", line_total := 50 }]) :=
  ⟨rfl, placeholder_amended_c4 tireOp160 (some ⟨[]⟩) "HONDA" rfl⟩

/-- C10: two runs of the labor classifier on the same decoded notes
and labor rate produce identical operations and log whatever the
vehicle profile: labor_agent of src/app.py is invoked by
run_full_pipeline with the decoded notes and the rate only, so its
result cannot depend on make, engine descriptor, or any other
profile attribute. -/
theorem classifier_noninterference_c10 (decoded_notes : String) (labor_rate : ℚ)
    (p₁ p₂ : VinProfileD) :
    laborStage decoded_notes labor_rate p₁ = laborStage decoded_notes labor_rate p₂ := rfl

/-- C5: the estimate totaler computes shop fees from the raw subtotal,
tax as round((subtotal + fees) * tax_pct, 2) with the already-rounded
fees, and the stored summary satisfies grand_total = labor_subtotal +
parts_subtotal + shop_fees + tax.  The hypothesis states the data
model invariant that labor line totals are whole-cent amounts, which
holds for every operation that labor_agent emits since it sets
line_total = round(hours * rate, 2). -/
theorem estimate_totaler_c5 (labor_ops : List LaborOp) (parts_lines : List PartLine)
    (shop_fees_pct tax_pct : ℚ)
    (h : ∀ op ∈ labor_ops, isCents op.line_total) :
    (estimateGenerator labor_ops parts_lines shop_fees_pct tax_pct).summary.shop_fees
      = round2 (((labor_ops.map LaborOp.line_total).sum +
          (parts_lines.map PartLine.line_total).sum) * shop_fees_pct) ∧
    (estimateGenerator labor_ops parts_lines shop_fees_pct tax_pct).summary.tax
      = round2 (((labor_ops.map LaborOp.line_total).sum +
          (parts_lines.map PartLine.line_total).sum +
          (estimateGenerator labor_ops parts_lines shop_fees_pct tax_pct).summary.shop_fees) * tax_pct) ∧
    (estimateGenerator labor_ops parts_lines shop_fees_pct tax_pct).summary.grand_total
      = (estimateGenerator labor_ops parts_lines shop_fees_pct tax_pct).summary.labor_subtotal +
        (estimateGenerator labor_ops parts_lines shop_fees_pct tax_pct).summary.parts_subtotal +
        (estimateGenerator labor_ops parts_lines shop_fees_pct tax_pct).summary.shop_fees +
        (estimateGenerator labor_ops parts_lines shop_fees_pct tax_pct).summary.tax := by
  have hls : isCents ((labor_ops.map LaborOp.line_total).sum) :=
    isCents_sum_map labor_ops LaborOp.line_total h
  refine ⟨rfl, rfl, ?_⟩
  exact round2_grand hls (isCents_round2 _) (isCents_round2 _)

theorem estimate_totaler_c5_witness :
    (∀ op ∈ ([] : List LaborOp), isCents op.line_total) ∧
    ((estimateGenerator [] [tinyPart] 0 0).summary.shop_fees
      = round2 (((([] : List LaborOp).map LaborOp.line_total).sum +
          ([tinyPart].map PartLine.line_total).sum) * 0) ∧
    (estimateGenerator [] [tinyPart] 0 0).summary.tax
      = round2 (((([] : List LaborOp).map LaborOp.line_total).sum +
          ([tinyPart].map PartLine.line_total).sum +
          (estimateGenerator [] [tinyPart] 0 0).summary.shop_fees) * 0) ∧
    (estimateGenerator [] [tinyPart] 0 0).summary.grand_total
      = (estimateGenerator [] [tinyPart] 0 0).summary.labor_subtotal +
        (estimateGenerator [] [tinyPart] 0 0).summary.parts_subtotal +
        (estimateGenerator [] [tinyPart] 0 0).summary.shop_fees +
        (estimateGenerator [] [tinyPart] 0 0).summary.tax) :=
  ⟨by simp, estimate_totaler_c5 [] [tinyPart] 0 0 (by simp)⟩

/-- C6: the validation engine returns status "review" exactly when at
least one warning was raised by one of its rules (shop supplies, tax,
auto-approval ceiling, high-value tire), and "pass" otherwise;
warnings are a returned list, never an exception.  The ceiling rule
always appends a warning when it fires, so review-if-and-only-if-warned
holds without a separate ceiling disjunct. -/
theorem validation_review_iff_c6 (estimate_summary : EstimateSummary)
    (parts_lines : List PartLine) :
    (validateEstimate estimate_summary parts_lines).status =
      (if (validateEstimate estimate_summary parts_lines).warnings.isEmpty
       then "pass" else "review") := by
  by_cases hbig : estimate_summary.grand_total > MAX_AUTO_APPROVAL
  · simp [validateEstimate, hbig, isEmpty_append]
  · simp only [validateEstimate, hbig, if_false, isEmpty_append]
    exact status_flip _

/-- C7: for every input whose trimmed, uppercased form has a length
other than 17, decode returns confidence exactly 0 and make "UNKNOWN";
for every 17-character VIN whose first three characters resolve in the
loaded manufacturer table to an entry with a genuine make (the static
table maps codes to real makes, never to the "UNKNOWN" sentinel),
decode returns confidence 0.8 (= 4/5) with the make of the table entry
and the model of the fixed make-to-model mapping. -/
theorem vin_decode_c7 (wmiDb : List (String × WmiEntry)) (rulesDb : List (String × VinRule))
    (pick : List String → String) (vin : String) :
    ((stripS (upperS vin)).length ≠ 17 →
        (decode wmiDb rulesDb pick vin).confidence = 0 ∧
        (decode wmiDb rulesDb pick vin).make = "UNKNOWN") ∧
    (∀ e : WmiEntry, (stripS (upperS vin)).length = 17 →
        wmiDb.lookup (String.mk ((stripS (upperS vin)).data.take 3)) = some e →
        e.make ≠ "UNKNOWN" →
        (decode wmiDb rulesDb pick vin).confidence = 4/5 ∧
        (decode wmiDb rulesDb pick vin).make = e.make ∧
        (decode wmiDb rulesDb pick vin).model = modelFor e.make) := by
  constructor
  · intro h
    simp [decode, h]
  · intro e hlen hlook hmk
    simp [decode, hlen, hlook, hmk]

theorem vin_decode_c7_witness :
    ((stripS (upperS "1hgcm82633a123451 ")).length = 17 ∧
     wmiHonda.lookup (String.mk ((stripS (upperS "1hgcm82633a123451 ")).data.take 3))
       = some ⟨"HONDA", "Car"⟩ ∧
     (decode wmiHonda [] pickHead "1hgcm82633a123451 ").confidence = 4/5 ∧
     (decode wmiHonda [] pickHead "1hgcm82633a123451 ").make = "HONDA" ∧
     (decode wmiHonda [] pickHead "1hgcm82633a123451 ").model = modelFor "HONDA") ∧
    ((stripS (upperS "AB")).length ≠ 17 ∧
     (decode wmiHonda [] pickHead "AB").confidence = 0 ∧
     (decode wmiHonda [] pickHead "AB").make = "UNKNOWN") :=
  ⟨⟨by decide, by decide,
    (vin_decode_c7 wmiHonda [] pickHead "1hgcm82633a123451 ").2 ⟨"HONDA", "Car"⟩
      (by decide) (by decide) (by decide)⟩,
   ⟨by decide, (vin_decode_c7 wmiHonda [] pickHead "AB").1 (by decide)⟩⟩

/-- C8: the notes "grinding noise from rear, pads metal to metal"
yield exactly one labor operation, RR-BRAKE at 2.0 hours, for every
labor rate; and any input containing no keyword of any of the seven
groups yields exactly one GEN-DIAG operation at 1.0 hour. -/
theorem classifier_coverage_c8 :
    (∀ rate : ℚ, (laborAgent "grinding noise from rear, pads metal to metal" rate).labor_ops =
      [⟨"RR-BRAKE", "Replace rear brake pads and rotors", 2, rate, round2 (2 * rate)⟩]) ∧
    (∀ (s : String) (rate : ℚ), hasAnyKeyword s = false →
      (laborAgent s rate).labor_ops =
        [⟨"GEN-DIAG", "General Diagnosis (No specific system matched)", 1, rate,
          round2 (1 * rate)⟩]) := by
  constructor
  · intro rate
    rfl
  · intro s rate h
    simp only [hasAnyKeyword, Bool.or_eq_false_iff] at h
    obtain ⟨⟨⟨⟨⟨⟨h1, h2⟩, h3⟩, h4⟩, h5⟩, h6⟩, h7⟩ := h
    simp [laborAgent, h1, h2, h3, h4, h5, h6, h7]

theorem classifier_coverage_c8_witness :
    hasAnyKeyword "hello" = false ∧
    (laborAgent "hello" 100).labor_ops =
      [⟨"GEN-DIAG", "General Diagnosis (No specific system matched)", 1, 100,
        round2 (1 * 100)⟩] :=
  ⟨by decide, classifier_coverage_c8.2 "hello" 100 (by decide)⟩

/-- C9: a catalog lookup leaves the service state unchanged, and every
record it returns is a fresh copy of a matching stored row with the
computed per-line fields (qty, line_total) written only onto the copy,
so the shared table is never altered. -/
theorem catalog_lookup_frame_c9 (svc : CatalogService) (make op_code : String) :
    (svc.get_parts_for_op make op_code).2 = svc ∧
    ∀ item ∈ (svc.get_parts_for_op make op_code).1,
      ∃ row ∈ svc.db,
        (upperS row.make == upperS make && row.operation_code == op_code) = true ∧
        item = { row with qty := some 1, line_total := some ((1 : ℚ) * row.unit_price) } := by
  constructor
  · rfl
  · intro item hmem
    simp only [CatalogService.get_parts_for_op, List.mem_map, List.mem_filter] at hmem
    obtain ⟨row, ⟨hrow, hcond⟩, rfl⟩ := hmem
    exact ⟨row, hrow, hcond, rfl⟩

theorem catalog_lookup_frame_c9_witness :
    (svcRotor.get_parts_for_op "HONDA" "RR-BRAKE").2 = svcRotor ∧
    ∃ row ∈ svcRotor.db,
      (upperS row.make == upperS "HONDA" && row.operation_code == "RR-BRAKE") = true ∧
      rotorCopy = { row with qty := some 1, line_total := some ((1 : ℚ) * row.unit_price) } :=
  ⟨(catalog_lookup_frame_c9 svcRotor "HONDA" "RR-BRAKE").1,
   (catalog_lookup_frame_c9 svcRotor "HONDA" "RR-BRAKE").2 rotorCopy (List.Mem.head _)⟩

end FixedOps
